import Mathlib

/-!
Shallow embedding of `src/resize_powerpoint.py` (class `PowerPointResizer`).

Modelling choices:
* Lengths (EMU), positions and font sizes are integers in the document model;
  Python's arithmetic on them (`shape.left * scale_x + offset_x`) is real-valued,
  modelled by `ℚ`.  Python's `int(...)` conversion truncates toward zero,
  modelled by `truncQ`.
* `calculate_uniform_scale` divides by the original dimensions; Python raises
  `ZeroDivisionError` exactly when a denominator is zero, so the embedding
  returns `Option`, `none` on a zero dimension.  No other validation exists in
  the source.
* In-place mutation of a shape inside the `try:` block of
  `resize_and_reposition_shape` is modelled by `Except Shape Shape`: the normal
  result carries the final state, the error result carries the state of the
  shape at the moment the exception was raised (mutations already performed
  persist).  The `except` clause turns either into a returned shape plus a
  warning flag.
* The external document model (python-pptx) rejects coordinate values outside
  the representable range of `ST_Coordinate` by raising; the setters for
  `left`, `top`, `width`, `height` are modelled as fallible via `reprOk`.
-/

namespace ResizePowerpoint

/-- The `scale_mode` argument.  The CLI restricts it to these three values;
in `calculate_uniform_scale` any value other than `fit` and `fill` takes the
`else` (stretch) branch. -/
inductive Mode where
  | fit
  | fill
  | stretch
deriving DecidableEq, Repr

/-- The 4-tuple returned by `calculate_uniform_scale`:
`(scale_x, scale_y, offset_x, offset_y)`. -/
structure ScaleResult where
  scale_x : ℚ
  scale_y : ℚ
  offset_x : ℚ
  offset_y : ℚ
deriving DecidableEq, Repr

/-- `PowerPointResizer.calculate_uniform_scale` (lines 33-59).
`target_width`/`target_height` are the stored target dimensions,
`original_width`/`original_height` the presentation's dimensions.
Python raises `ZeroDivisionError` when a denominator is zero (`none`);
otherwise the divisions are real-valued. -/
def calculate_uniform_scale (scale_mode : Mode)
    (target_width target_height original_width original_height : ℚ) :
    Option ScaleResult :=
  if original_width = 0 ∨ original_height = 0 then
    none
  else
    let width_scale := target_width / original_width
    let height_scale := target_height / original_height
    match scale_mode with
    | .stretch => some ⟨width_scale, height_scale, 0, 0⟩
    | .fit =>
        let scale := min width_scale height_scale
        let scaled_width := original_width * scale
        let scaled_height := original_height * scale
        some ⟨scale, scale, (target_width - scaled_width) / 2,
              (target_height - scaled_height) / 2⟩
    | .fill =>
        let scale := max width_scale height_scale
        let scaled_width := original_width * scale
        let scaled_height := original_height * scale
        some ⟨scale, scale, (target_width - scaled_width) / 2,
              (target_height - scaled_height) / 2⟩

/-- Python's `int(...)` applied to a real value: truncation toward zero
(floor for nonnegative values, ceiling for negative ones). -/
def truncQ (q : ℚ) : ℤ := if 0 ≤ q then ⌊q⌋ else ⌈q⌉

/-- A text run; `size` is `run.font.size`, `none` when the font size is unset
(inherited from the style). -/
structure TextRun where
  size : Option ℤ
deriving DecidableEq, Repr

/-- A paragraph of a text frame. -/
structure Paragraph where
  runs : List TextRun
deriving DecidableEq, Repr

/-- A text frame: a list of paragraphs of runs. -/
structure TextFrame where
  paragraphs : List Paragraph
deriving DecidableEq, Repr

/-- A shape.  `pos` is present iff the shape has the `left` and `top`
attributes, `sz` iff it has `width` and `height`, `tf` iff it has a
`text_frame`. -/
structure Shape where
  pos : Option (ℤ × ℤ)
  sz : Option (ℤ × ℤ)
  tf : Option TextFrame
deriving DecidableEq, Repr

/-- Lower bound of python-pptx `ST_CoordinateUnqualified`. -/
def ST_COORDINATE_MIN : ℤ := -27273042329600

/-- Upper bound of python-pptx `ST_CoordinateUnqualified`. -/
def ST_COORDINATE_MAX : ℤ := 27273042316900

/-- Modelled from the spec: the external document model's geometry setters
raise when "a value is out of the representable range for the underlying
numeric type"; the range is python-pptx's `ST_CoordinateUnqualified`. -/
def reprOk (v : ℤ) : Bool := decide (ST_COORDINATE_MIN ≤ v ∧ v ≤ ST_COORDINATE_MAX)

/-- The font-scale expression of line 80:
`min(scale_x, scale_y) if scale_x != scale_y else scale_x`. -/
def fontScale (scale_x scale_y : ℚ) : ℚ :=
  if scale_x ≠ scale_y then min scale_x scale_y else scale_x

/-- Body of the run loop in `scale_text_frame` (lines 93-96):
`if run.font.size:` is false for `None` and for `0`; otherwise the size is
multiplied by the scale factor and truncated by `int(...)`. -/
def scale_run (scale_factor : ℚ) (r : TextRun) : TextRun :=
  match r.size with
  | none => r
  | some v => if v = 0 then r else ⟨some (truncQ ((v : ℚ) * scale_factor))⟩

/-- `PowerPointResizer.scale_text_frame` (lines 86-98): scales every run of
every paragraph.  (Nothing in this model raises, so its `try`/`except` is
inert.) -/
def scale_text_frame (scale_factor : ℚ) (tf : TextFrame) : TextFrame :=
  ⟨tf.paragraphs.map fun p => ⟨p.runs.map (scale_run scale_factor)⟩⟩

/-- Lines 68-70: `shape.left = int(shape.left * scale_x + offset_x)` then
`shape.top = int(shape.top * scale_y + offset_y)`.  Each assignment raises
when the value is out of range; the error carries the shape state at the
raise (the `left` assignment may already have happened). -/
def posStep (scale_x scale_y offset_x offset_y : ℚ) (s : Shape) :
    Except Shape Shape :=
  match s.pos with
  | none => .ok s
  | some (x, y) =>
      let nx := truncQ ((x : ℚ) * scale_x + offset_x)
      if reprOk nx then
        let s1 : Shape := { s with pos := some (nx, y) }
        let ny := truncQ ((y : ℚ) * scale_y + offset_y)
        if reprOk ny then .ok { s1 with pos := some (nx, ny) }
        else .error s1
      else .error s

/-- Lines 73-75: `shape.width = int(shape.width * scale_x)` then
`shape.height = int(shape.height * scale_y)`, each fallible. -/
def sizeStep (scale_x scale_y : ℚ) (s : Shape) : Except Shape Shape :=
  match s.sz with
  | none => .ok s
  | some (w, hgt) =>
      let nw := truncQ ((w : ℚ) * scale_x)
      if reprOk nw then
        let s1 : Shape := { s with sz := some (nw, hgt) }
        let nh := truncQ ((hgt : ℚ) * scale_y)
        if reprOk nh then .ok { s1 with sz := some (nw, nh) }
        else .error s1
      else .error s

/-- Lines 78-81: when the shape has a `text_frame`, scale it with the
uniform font factor.  `scale_text_frame` catches its own exceptions, so this
step never propagates one. -/
def textStep (scale_x scale_y : ℚ) (s : Shape) : Except Shape Shape :=
  match s.tf with
  | none => .ok s
  | some tf => .ok { s with tf := some (scale_text_frame (fontScale scale_x scale_y) tf) }

/-- The `try:` block of `resize_and_reposition_shape` (lines 66-81):
position, then size, then text, stopping at the first raise. -/
def resizeBody (scale_x scale_y offset_x offset_y : ℚ) (s : Shape) :
    Except Shape Shape :=
  match posStep scale_x scale_y offset_x offset_y s with
  | .error s' => .error s'
  | .ok s1 =>
      match sizeStep scale_x scale_y s1 with
      | .error s' => .error s'
      | .ok s2 => textStep scale_x scale_y s2

/-- `PowerPointResizer.resize_and_reposition_shape` (lines 61-84): the
`except` clause converts a raise into a printed warning (`true`) and keeps
the shape state reached so far; otherwise the transformed shape is kept
(`false`). -/
def resize_and_reposition_shape (scale_x scale_y offset_x offset_y : ℚ)
    (s : Shape) : Shape × Bool :=
  match resizeBody scale_x scale_y offset_x offset_y s with
  | .ok s' => (s', false)
  | .error s' => (s', true)

/-- `PowerPointResizer.organize_slide` (lines 100-107): the `for` loop over
`slide.shapes`, each processed by `resize_and_reposition_shape`. -/
def organize_slide (scale_x scale_y offset_x offset_y : ℚ) :
    List Shape → List Shape
  | [] => []
  | s :: rest =>
      (resize_and_reposition_shape scale_x scale_y offset_x offset_y s).1 ::
        organize_slide scale_x scale_y offset_x offset_y rest

/-- The document model: slide dimensions plus the slides (lists of shapes). -/
structure Pres where
  slide_width : ℚ
  slide_height : ℚ
  slides : List (List Shape)
deriving DecidableEq, Repr

/-- The document transform of `process_presentation` (lines 124-150): compute
the descriptor from the original dimensions, overwrite the slide dimensions,
then organize every slide.  `none` when `calculate_uniform_scale` raises
`ZeroDivisionError` (which line 132 does not catch, so the run aborts before
any mutation). -/
def process_core (scale_mode : Mode) (target_width target_height : ℚ)
    (prs : Pres) : Option Pres :=
  match calculate_uniform_scale scale_mode target_width target_height
      prs.slide_width prs.slide_height with
  | none => none
  | some r =>
      some { slide_width := target_width, slide_height := target_height,
             slides := prs.slides.map
               (organize_slide r.scale_x r.scale_y r.offset_x r.offset_y) }

/-- The success result of `process_presentation` (lines 109-160): `False`
when loading fails (line 121), failure when the scale computation raises
(uncaught, non-zero exit), otherwise exactly the save outcome (lines
154-160).  Per-element warnings never reach this value. -/
def process_presentation (scale_mode : Mode) (target_width target_height : ℚ)
    (loaded : Option Pres) (saveOk : Bool) : Bool :=
  match loaded with
  | none => false
  | some prs =>
      match process_core scale_mode target_width target_height prs with
      | none => false
      | some _ => saveOk

/-! ## Helper lemmas -/

lemma calculate_ne_zero (mode : Mode) (tw th ow oh : ℚ) (hw : ow ≠ 0)
    (hh : oh ≠ 0) : (calculate_uniform_scale mode tw th ow oh).isSome = true := by
  unfold calculate_uniform_scale
  rw [if_neg (by push_neg; exact ⟨hw, hh⟩)]
  cases mode <;> simp

/-! ## Claims about the scale calculator -/

/-- Claim C1: for strictly positive source and target dimensions, mode `fit`
returns equal scale factors `scale_x = scale_y = min(target.width/source.width,
target.height/source.height)` and the centering offsets
`offset_x = (target.width - source.width*scale)/2`,
`offset_y = (target.height - source.height*scale)/2`. -/
theorem c1_fit_uniform_scale (tw th ow oh : ℚ) (h1 : 0 < ow) (h2 : 0 < oh)
    (h3 : 0 < tw) (h4 : 0 < th) :
    calculate_uniform_scale .fit tw th ow oh =
      some ⟨min (tw / ow) (th / oh), min (tw / ow) (th / oh),
            (tw - ow * min (tw / ow) (th / oh)) / 2,
            (th - oh * min (tw / ow) (th / oh)) / 2⟩ := by
  unfold calculate_uniform_scale
  rw [if_neg (by push_neg; exact ⟨ne_of_gt h1, ne_of_gt h2⟩)]

/-- Witness for C1 at source 10×10, target 36×48: scale 18/5, offsets (0, 6). -/
theorem c1_fit_uniform_scale_witness :
    calculate_uniform_scale .fit 36 48 10 10 = some ⟨18/5, 18/5, 0, 6⟩ := by
  rw [c1_fit_uniform_scale 36 48 10 10 (by norm_num) (by norm_num) (by norm_num)
    (by norm_num)]
  norm_num [min_def]

/-- Claim C2: for strictly positive dimensions, mode `stretch` returns
`scale_x = target.width/source.width`, `scale_y = target.height/source.height`
and zero offsets. -/
theorem c2_stretch_scale (tw th ow oh : ℚ) (h1 : 0 < ow) (h2 : 0 < oh)
    (h3 : 0 < tw) (h4 : 0 < th) :
    calculate_uniform_scale .stretch tw th ow oh =
      some ⟨tw / ow, th / oh, 0, 0⟩ := by
  unfold calculate_uniform_scale
  rw [if_neg (by push_neg; exact ⟨ne_of_gt h1, ne_of_gt h2⟩)]

/-- Witness for C2 at source 10×10, target 36×48: scales (18/5, 24/5). -/
theorem c2_stretch_scale_witness :
    calculate_uniform_scale .stretch 36 48 10 10 = some ⟨18/5, 24/5, 0, 0⟩ := by
  rw [c2_stretch_scale 36 48 10 10 (by norm_num) (by norm_num) (by norm_num)
    (by norm_num)]
  norm_num

/-- Claim C3: for strictly positive dimensions, mode `fill` returns equal
scale factors `max(target.width/source.width, target.height/source.height)`
with the same centering offset formulas as `fit`. -/
theorem c3_fill_uniform_scale (tw th ow oh : ℚ) (h1 : 0 < ow) (h2 : 0 < oh)
    (h3 : 0 < tw) (h4 : 0 < th) :
    calculate_uniform_scale .fill tw th ow oh =
      some ⟨max (tw / ow) (th / oh), max (tw / ow) (th / oh),
            (tw - ow * max (tw / ow) (th / oh)) / 2,
            (th - oh * max (tw / ow) (th / oh)) / 2⟩ := by
  unfold calculate_uniform_scale
  rw [if_neg (by push_neg; exact ⟨ne_of_gt h1, ne_of_gt h2⟩)]

/-- Witness for C3 at source 10×10, target 36×48: scale 24/5, offsets (-6, 0). -/
theorem c3_fill_uniform_scale_witness :
    calculate_uniform_scale .fill 36 48 10 10 = some ⟨24/5, 24/5, -6, 0⟩ := by
  rw [c3_fill_uniform_scale 36 48 10 10 (by norm_num) (by norm_num) (by norm_num)
    (by norm_num)]
  norm_num [max_def]

/-! ## Claims about the geometry transformer -/

/-- Claim C4: for every element with both position and size (and values inside
the representable range, where the setters do not raise), the transform
rewrites the geometry as `new_x = trunc(old_x*scale_x + offset_x)`,
`new_y = trunc(old_y*scale_y + offset_y)`, `new_width = trunc(old_width*scale_x)`,
`new_height = trunc(old_height*scale_y)`, the arithmetic being real-valued and
the final integer conversion truncating toward zero (floor on nonnegative
values, ceiling on negative ones). -/
theorem c4_geometry_transform (sx sy ox oy : ℚ) (x y w h : ℤ)
    (tf : Option TextFrame)
    (h1 : reprOk (truncQ ((x : ℚ) * sx + ox)) = true)
    (h2 : reprOk (truncQ ((y : ℚ) * sy + oy)) = true)
    (h3 : reprOk (truncQ ((w : ℚ) * sx)) = true)
    (h4 : reprOk (truncQ ((h : ℚ) * sy)) = true) :
    resize_and_reposition_shape sx sy ox oy ⟨some (x, y), some (w, h), tf⟩
      = (⟨some (truncQ ((x : ℚ) * sx + ox), truncQ ((y : ℚ) * sy + oy)),
          some (truncQ ((w : ℚ) * sx), truncQ ((h : ℚ) * sy)),
          tf.map (scale_text_frame (fontScale sx sy))⟩, false)
    ∧ (∀ q : ℚ, 0 ≤ q → truncQ q = ⌊q⌋)
    ∧ (∀ q : ℚ, q < 0 → truncQ q = ⌈q⌉) := by
  refine ⟨?_, fun q hq => ?_, fun q hq => ?_⟩
  · cases tf <;>
      simp [resize_and_reposition_shape, resizeBody, posStep, sizeStep, textStep,
        h1, h2, h3, h4]
  · simp [truncQ, hq]
  · simp [truncQ, not_le.mpr hq]

/-- Witness for C4: spec scenario, scale 18/5 with offsets (0, 6) on the
element at (1, 1) of size (2, 2) gives position (3, 9) and size (7, 7). -/
theorem c4_geometry_transform_witness :
    resize_and_reposition_shape (18/5) (18/5) 0 6 ⟨some (1, 1), some (2, 2), none⟩
      = (⟨some (3, 9), some (7, 7), none⟩, false) := by
  rw [(c4_geometry_transform (18/5) (18/5) 0 6 1 1 2 2 none
    (by norm_num [reprOk, truncQ, ST_COORDINATE_MIN, ST_COORDINATE_MAX])
    (by norm_num [reprOk, truncQ, ST_COORDINATE_MIN, ST_COORDINATE_MAX])
    (by norm_num [reprOk, truncQ, ST_COORDINATE_MIN, ST_COORDINATE_MAX])
    (by norm_num [reprOk, truncQ, ST_COORDINATE_MIN, ST_COORDINATE_MAX])).1]
  norm_num [truncQ]

/-- Claim C5: each text run's font size is multiplied by exactly
`min(scale_x, scale_y)` and truncated; the source's special case (using
`scale_x` when `scale_x == scale_y`) is identical to always taking the
minimum. -/
theorem c5_font_scale_min (sx sy : ℚ) (v : ℤ) (hv : v ≠ 0) :
    fontScale sx sy = min sx sy
    ∧ scale_run (fontScale sx sy) ⟨some v⟩
        = ⟨some (truncQ ((v : ℚ) * min sx sy))⟩ := by
  have hmin : fontScale sx sy = min sx sy := by
    by_cases hxy : sx = sy <;> simp [fontScale, hxy]
  exact ⟨hmin, by simp [scale_run, hv, hmin]⟩

/-- Witness for C5 at scales (3, 2) and font size 10: factor `min 3 2` and
scaled size 20. -/
theorem c5_font_scale_min_witness :
    fontScale 3 2 = min 3 2
    ∧ scale_run (fontScale 3 2) ⟨some 10⟩ = ⟨some (truncQ ((10 : ℚ) * min 3 2))⟩ :=
  c5_font_scale_min 3 2 10 (by norm_num)

/-! ## Claims about error handling -/

/-- Claim C6, counterexample: at the non-positive source width -10 (target
36×48, mode `fit`) the scale calculator does not reject the input: it
computes a descriptor with negative scale -18/5, and the whole run reports
success.  The claim that such inputs are rejected before any computation,
with a failure result, is therefore false. -/
theorem c6_no_rejection_counterexample :
    calculate_uniform_scale .fit 36 48 (-10) 10 = some ⟨-18/5, -18/5, 0, 42⟩
    ∧ process_presentation .fit 36 48 (some ⟨-10, 10, []⟩) true = true := by
  have hc : calculate_uniform_scale .fit 36 48 (-10) 10
      = some ⟨-18/5, -18/5, 0, 42⟩ := by
    unfold calculate_uniform_scale
    norm_num [min_def]
  refine ⟨hc, ?_⟩
  simp [process_presentation, process_core, hc]

/-- Claim C6 as amended: the code never validates dimensions.  A zero source
dimension makes the scale computation raise before any document mutation, and
the run ends with a failure result; negative (or otherwise invalid) dimensions
are not rejected and processing proceeds. -/
theorem c6_zero_dimension_aborts (mode : Mode) (tw th : ℚ) (prs : Pres)
    (h : prs.slide_width = 0 ∨ prs.slide_height = 0) :
    process_core mode tw th prs = none
    ∧ ∀ saveOk, process_presentation mode tw th (some prs) saveOk = false := by
  have hc : calculate_uniform_scale mode tw th prs.slide_width prs.slide_height
      = none := by
    unfold calculate_uniform_scale
    rw [if_pos h]
  refine ⟨?_, fun saveOk => ?_⟩
  · simp [process_core, hc]
  · simp [process_presentation, process_core, hc]

/-- Witness for the amended C6 at a presentation of width 0. -/
theorem c6_zero_dimension_aborts_witness :
    process_core .fit 36 48 ⟨0, 10, []⟩ = none
    ∧ ∀ saveOk, process_presentation .fit 36 48 (some ⟨0, 10, []⟩) saveOk = false :=
  c6_zero_dimension_aborts .fit 36 48 ⟨0, 10, []⟩ (Or.inl rfl)

lemma organize_slide_append (sx sy ox oy : ℚ) (l1 l2 : List Shape) :
    organize_slide sx sy ox oy (l1 ++ l2)
      = organize_slide sx sy ox oy l1 ++ organize_slide sx sy ox oy l2 := by
  induction l1 with
  | nil => rfl
  | cons s rest ih => simp [organize_slide, ih]

lemma organize_slide_length (sx sy ox oy : ℚ) (l : List Shape) :
    (organize_slide sx sy ox oy l).length = l.length := by
  induction l with
  | nil => rfl
  | cons s rest ih => simp [organize_slide, ih]

/-- Claim C7: a per-element failure is recovered locally as a non-fatal
warning: the failing element yields the caught state with the warning flag,
every other element of the slide (before and after it) is still processed,
the slide keeps its length, and the run's success result is exactly the save
outcome, unchanged by any per-element failure. -/
theorem c7_per_element_failure_recovered (sx sy ox oy : ℚ) (s sErr : Shape)
    (hfail : resizeBody sx sy ox oy s = .error sErr) (pre post : List Shape)
    (mode : Mode) (tw th pw ph : ℚ) (slides : List (List Shape)) (saveOk : Bool)
    (hw : pw ≠ 0) (hh : ph ≠ 0) :
    resize_and_reposition_shape sx sy ox oy s = (sErr, true)
    ∧ organize_slide sx sy ox oy (pre ++ s :: post)
        = organize_slide sx sy ox oy pre ++ sErr :: organize_slide sx sy ox oy post
    ∧ (organize_slide sx sy ox oy (pre ++ s :: post)).length
        = (pre ++ s :: post).length
    ∧ process_presentation mode tw th (some ⟨pw, ph, slides⟩) saveOk = saveOk := by
  have hres : resize_and_reposition_shape sx sy ox oy s = (sErr, true) := by
    simp [resize_and_reposition_shape, hfail]
  refine ⟨hres, ?_, organize_slide_length sx sy ox oy (pre ++ s :: post), ?_⟩
  · rw [organize_slide_append]
    simp [organize_slide, hres]
  · obtain ⟨r, hr⟩ := Option.isSome_iff_exists.mp
      (calculate_ne_zero mode tw th pw ph hw hh)
    simp [process_presentation, process_core, hr]

/-- Witness for C7: the element at (1, 1) of width 2·10^13 fails at the
width assignment under scale 2; it is kept with the warning flag, the slide
is still processed end to end, and a run whose only element is this failing
one still succeeds. -/
theorem c7_per_element_failure_recovered_witness :
    resize_and_reposition_shape 2 2 0 0 ⟨some (1, 1), some (20000000000000, 1), none⟩
      = (⟨some (2, 2), some (20000000000000, 1), none⟩, true)
    ∧ organize_slide 2 2 0 0
        ([] ++ (⟨some (1, 1), some (20000000000000, 1), none⟩ : Shape) ::
          [⟨some (0, 0), some (1, 1), none⟩])
        = organize_slide 2 2 0 0 [] ++
            (⟨some (2, 2), some (20000000000000, 1), none⟩ : Shape) ::
              organize_slide 2 2 0 0 [⟨some (0, 0), some (1, 1), none⟩]
    ∧ (organize_slide 2 2 0 0
        ([] ++ (⟨some (1, 1), some (20000000000000, 1), none⟩ : Shape) ::
          [⟨some (0, 0), some (1, 1), none⟩])).length
        = ([] ++ (⟨some (1, 1), some (20000000000000, 1), none⟩ : Shape) ::
          [⟨some (0, 0), some (1, 1), none⟩]).length
    ∧ process_presentation .fit 36 48
        (some ⟨10, 10, [[⟨some (1, 1), some (20000000000000, 1), none⟩]]⟩) true
        = true :=
  c7_per_element_failure_recovered 2 2 0 0
    ⟨some (1, 1), some (20000000000000, 1), none⟩
    ⟨some (2, 2), some (20000000000000, 1), none⟩
    (by norm_num [resizeBody, posStep, sizeStep, textStep, reprOk, truncQ,
      ST_COORDINATE_MIN, ST_COORDINATE_MAX])
    [] [⟨some (0, 0), some (1, 1), none⟩]
    .fit 36 48 10 10 [[⟨some (1, 1), some (20000000000000, 1), none⟩]] true
    (by norm_num) (by norm_num)

/-- Claim C8, counterexample: under scale 2 the element at (1, 1) with width
2·10^13 fails at the width assignment, but its position has already been
mutated to (2, 2): the update is not skipped entirely, a partial mutation
persists. -/
theorem c8_partial_mutation_counterexample :
    resize_and_reposition_shape 2 2 0 0 ⟨some (1, 1), some (20000000000000, 1), none⟩
      = (⟨some (2, 2), some (20000000000000, 1), none⟩, true)
    ∧ (⟨some (2, 2), some (20000000000000, 1), none⟩ : Shape).pos ≠ some (1, 1) := by
  constructor
  · norm_num [resize_and_reposition_shape, resizeBody, posStep, sizeStep,
      textStep, reprOk, truncQ, ST_COORDINATE_MIN, ST_COORDINATE_MAX]
  · decide

/-- Claim C8 as amended: on a per-element failure the assignments already
performed before the failing one persist (in source order: x, y, width,
height, fonts) and only the remaining ones are skipped; here, when the width
assignment is the one that fails, the new position persists while size and
fonts are untouched, and the failure is still downgraded to a warning. -/
theorem c8_prior_assignments_persist (sx sy ox oy : ℚ) (x y w h : ℤ)
    (tf : Option TextFrame)
    (h1 : reprOk (truncQ ((x : ℚ) * sx + ox)) = true)
    (h2 : reprOk (truncQ ((y : ℚ) * sy + oy)) = true)
    (h3 : reprOk (truncQ ((w : ℚ) * sx)) = false) :
    resize_and_reposition_shape sx sy ox oy ⟨some (x, y), some (w, h), tf⟩
      = (⟨some (truncQ ((x : ℚ) * sx + ox), truncQ ((y : ℚ) * sy + oy)),
          some (w, h), tf⟩, true) := by
  simp [resize_and_reposition_shape, resizeBody, posStep, sizeStep, h1, h2, h3]

/-- Witness for the amended C8: scale 3 on the element at (2, 5) with width
10^13 moves it to (6, 15) and then fails on the width, leaving size and text
untouched. -/
theorem c8_prior_assignments_persist_witness :
    resize_and_reposition_shape 3 3 0 0 ⟨some (2, 5), some (10000000000000, 7), none⟩
      = (⟨some (6, 15), some (10000000000000, 7), none⟩, true) := by
  rw [c8_prior_assignments_persist 3 3 0 0 2 5 10000000000000 7 none
    (by norm_num [reprOk, truncQ, ST_COORDINATE_MIN, ST_COORDINATE_MAX])
    (by norm_num [reprOk, truncQ, ST_COORDINATE_MIN, ST_COORDINATE_MAX])
    (by norm_num [reprOk, truncQ, ST_COORDINATE_MIN, ST_COORDINATE_MAX])]
  norm_num [truncQ]

/-- Claim C9: an element lacking the position, size, or text capability has
the corresponding fields left untouched (and nothing substituted for them)
while the present capabilities are transformed normally, and the run is not
aborted; in particular an element without a text frame is simply skipped by
the font-scaling step. -/
theorem c9_missing_capability_skipped (sx sy ox oy : ℚ) (x y w h : ℤ)
    (hx : reprOk (truncQ ((x : ℚ) * sx + ox)) = true)
    (hy : reprOk (truncQ ((y : ℚ) * sy + oy)) = true)
    (hw : reprOk (truncQ ((w : ℚ) * sx)) = true)
    (hh : reprOk (truncQ ((h : ℚ) * sy)) = true) :
    (∀ tf, resize_and_reposition_shape sx sy ox oy ⟨none, some (w, h), tf⟩
        = (⟨none, some (truncQ ((w : ℚ) * sx), truncQ ((h : ℚ) * sy)),
            tf.map (scale_text_frame (fontScale sx sy))⟩, false))
    ∧ (∀ tf, resize_and_reposition_shape sx sy ox oy ⟨some (x, y), none, tf⟩
        = (⟨some (truncQ ((x : ℚ) * sx + ox), truncQ ((y : ℚ) * sy + oy)), none,
            tf.map (scale_text_frame (fontScale sx sy))⟩, false))
    ∧ resize_and_reposition_shape sx sy ox oy ⟨some (x, y), some (w, h), none⟩
        = (⟨some (truncQ ((x : ℚ) * sx + ox), truncQ ((y : ℚ) * sy + oy)),
            some (truncQ ((w : ℚ) * sx), truncQ ((h : ℚ) * sy)), none⟩, false) := by
  refine ⟨fun tf => ?_, fun tf => ?_, ?_⟩
  · cases tf <;>
      simp [resize_and_reposition_shape, resizeBody, posStep, sizeStep, textStep,
        hw, hh]
  · cases tf <;>
      simp [resize_and_reposition_shape, resizeBody, posStep, sizeStep, textStep,
        hx, hy]
  · simp [resize_and_reposition_shape, resizeBody, posStep, sizeStep, textStep,
      hx, hy, hw, hh]

/-- Witness for C9 at scale 2 with offsets (1, 1): an element without
position keeps no position, one without size keeps no size, one without text
keeps no text, while the present fields are transformed. -/
theorem c9_missing_capability_skipped_witness :
    resize_and_reposition_shape 2 2 1 1 ⟨none, some (5, 6), none⟩
      = (⟨none, some (10, 12), none⟩, false)
    ∧ resize_and_reposition_shape 2 2 1 1 ⟨some (3, 4), none, none⟩
      = (⟨some (7, 9), none, none⟩, false)
    ∧ resize_and_reposition_shape 2 2 1 1 ⟨some (3, 4), some (5, 6), none⟩
      = (⟨some (7, 9), some (10, 12), none⟩, false) := by
  have H := c9_missing_capability_skipped 2 2 1 1 3 4 5 6
    (by norm_num [reprOk, truncQ, ST_COORDINATE_MIN, ST_COORDINATE_MAX])
    (by norm_num [reprOk, truncQ, ST_COORDINATE_MIN, ST_COORDINATE_MAX])
    (by norm_num [reprOk, truncQ, ST_COORDINATE_MIN, ST_COORDINATE_MAX])
    (by norm_num [reprOk, truncQ, ST_COORDINATE_MIN, ST_COORDINATE_MAX])
  refine ⟨?_, ?_, ?_⟩
  · rw [H.1 none]; norm_num [truncQ]
  · rw [H.2.1 none]; norm_num [truncQ]
  · rw [H.2.2]; norm_num [truncQ]

/-- Claim C10: a text run whose font size is unset (`None`) or zero is left
unchanged by the font-scaling step; only runs with a set, non-zero size are
multiplied by the factor and truncated. -/
theorem c10_unset_or_zero_font_preserved (f : ℚ) :
    (∀ r : TextRun, r.size = none ∨ r.size = some 0 → scale_run f r = r)
    ∧ ∀ v : ℤ, v ≠ 0 → scale_run f ⟨some v⟩ = ⟨some (truncQ ((v : ℚ) * f))⟩ := by
  constructor
  · intro r hr
    rcases hr with h | h <;> simp [scale_run, h]
  · intro v hv
    simp [scale_run, hv]

/-- Witness for C10 at factor 1/2: unset and zero sizes are preserved, size
24 becomes 12. -/
theorem c10_unset_or_zero_font_preserved_witness :
    scale_run (1/2) ⟨none⟩ = ⟨none⟩ ∧ scale_run (1/2) ⟨some 0⟩ = ⟨some 0⟩
    ∧ scale_run (1/2) ⟨some 24⟩ = ⟨some 12⟩ := by
  have H := c10_unset_or_zero_font_preserved (1/2)
  refine ⟨H.1 ⟨none⟩ (Or.inl rfl), H.1 ⟨some 0⟩ (Or.inr rfl), ?_⟩
  rw [H.2 24 (by norm_num)]
  norm_num [truncQ]

end ResizePowerpoint
